import Mathlib

/-!
Verification development for the retail product label system.

Shallow embedding of the client-side logic:
* `generateSKU` (sku-generator module),
* the multi-image extraction merge and its error handling (ai-extraction.js),
* form population and collection (form-manager.js),
* the save-error classification, barcode duplicate pre-check and
  multi-key edit lookup (database.js, app.js wiring),
* the image dimension computation (image-compression.js).

Strings are modelled as Lean `String`/`List Char`; JS numbers are modelled
with exact rational arithmetic (`ℚ`); absent object fields are modelled with
`Option` (or `""` where JS truthiness conflates absence with the empty
string); fallible flows return `Except`.
-/

/-- JS whitespace (the common ASCII subset), as removed by `trim` and the
whitespace character class in the sku-generator regexes. -/
def isSpaceChar (c : Char) : Bool :=
  c == ' ' || c == '\t' || c == '\n' || c == '\x0d' || c == '\x0b' || c == '\x0c'

/-- The effect of JS `String.prototype.trim` on a character list. -/
def trimList (cs : List Char) : List Char :=
  ((cs.dropWhile isSpaceChar).reverse.dropWhile isSpaceChar).reverse

/-- `trim` on Lean strings, mirroring JS `s.trim()`. -/
def trimStr (s : String) : String :=
  String.mk (trimList s.data)

/-- JS `toUpperCase` (per-character, ASCII). -/
def upperStr (s : String) : String :=
  String.mk (s.data.map Char.toUpper)

/-- JS `toLowerCase` (per-character, ASCII). -/
def lowerStr (s : String) : String :=
  String.mk (s.data.map Char.toLower)

/-- Characters kept by the style-code cleanup regex `[^A-Z0-9\-_.\/]`
(applied after upper-casing). -/
def isStyleCodeChar (c : Char) : Bool :=
  ('A' ≤ c && c ≤ 'Z') || ('0' ≤ c && c ≤ '9') ||
  c == '-' || c == '_' || c == '.' || c == '/'

/-- Characters kept by the size-code cleanup regex `[^A-Z0-9X]`
(applied after upper-casing; `X` is already in `A-Z`). -/
def isSizeCodeChar (c : Char) : Bool :=
  ('A' ≤ c && c ≤ 'Z') || ('0' ≤ c && c ≤ '9')

/-- Brand name to code mapping (sku-generator module). -/
def BRAND_MAP : List (String × String) :=
  [("NIKE", "NK"), ("ADIDAS", "AD"), ("UNDER ARMOUR", "UA"), ("PUMA", "PM"),
   ("REEBOK", "RB"), ("NEW BALANCE", "NB"), ("VANS", "VN"), ("CONVERSE", "CV"),
   ("JORDAN", "JD"), ("WRANGLER", "WR"), ("LEVI", "LV"), ("LEVIS", "LV"),
   ("CARHARTT", "CH"), ("DICKIES", "DK"), ("COLE HAAN", "CH"),
   ("TIMBERLAND", "TB")]

/-- Color name to code mapping (sku-generator module). -/
def COLOR_MAP : List (String × String) :=
  [("BLACK", "BLK"), ("WHITE", "WHT"), ("RED", "RED"), ("BLUE", "BLU"),
   ("NAVY", "NVY"), ("GRAY", "GRY"), ("GREY", "GRY"), ("GREEN", "GRN"),
   ("YELLOW", "YEL"), ("ORANGE", "ORG"), ("PURPLE", "PUR"), ("PINK", "PNK"),
   ("BROWN", "BRN"), ("TAN", "TAN"), ("KHAKI", "KHK"), ("BEIGE", "BGE")]

/-- The cleaned style code before length truncation: upper-case, strip
whitespace, strip characters outside `A-Z0-9-_./` (the two `replace` calls
of `generateSKU`). -/
def cleanedStyle (style : List Char) : List Char :=
  ((style.map Char.toUpper).filter (fun c => !isSpaceChar c)).filter isStyleCodeChar

/-- The cleaned size code before length truncation (upper-case, strip
whitespace, keep `A-Z0-9X`). -/
def cleanedSize (size : List Char) : List Char :=
  ((size.map Char.toUpper).filter (fun c => !isSpaceChar c)).filter isSizeCodeChar

/-- The style code segment: the cleaned style, truncated to its first 8
characters when longer than 10. -/
def styleCodeOf (style : List Char) : List Char :=
  let c := cleanedStyle style
  if c.length > 10 then c.take 8 else c

/-- The brand code segment: the `BRAND_MAP` entry for the upper-cased brand,
or else the brand's first two characters upper-cased. -/
def brandCodeOf (brand : List Char) : List Char :=
  match BRAND_MAP.lookup (String.mk (brand.map Char.toUpper)) with
  | some code => code.data
  | none => (brand.take 2).map Char.toUpper

/-- The color code segment: the `COLOR_MAP` entry for the upper-cased color,
or else the color's first three characters upper-cased. -/
def colorCodeOf (color : List Char) : List Char :=
  match COLOR_MAP.lookup (String.mk (color.map Char.toUpper)) with
  | some code => code.data
  | none => (color.take 3).map Char.toUpper

/-- The size code segment: the cleaned size, truncated to its first 6
characters when longer than 6. -/
def sizeCodeOf (size : List Char) : List Char :=
  let c := cleanedSize size
  if c.length > 6 then c.take 6 else c

/-- The assembled SKU before the final 15-character truncation: the style
code, then a hyphen-prefixed segment for each present (trimmed) input. -/
def rawSKU (style brand color size : List Char) : List Char :=
  styleCodeOf style
    ++ (if brand ≠ [] then '-' :: brandCodeOf brand else [])
    ++ (if color ≠ [] then '-' :: colorCodeOf color else [])
    ++ (if size ≠ [] then '-' :: sizeCodeOf size else [])

/-- `generateSKU` from the sku-generator module, on character lists.
Style/brand/color/size are trimmed; an empty trimmed style yields `[]`;
otherwise the assembled SKU is truncated to 15 characters. -/
def generateSKUChars (style brand color size : List Char) : List Char :=
  let style := trimList style
  let brand := trimList brand
  let color := trimList color
  let size := trimList size
  if style = [] then []
  else
    let sku := rawSKU style brand color size
    if sku.length > 15 then sku.take 15 else sku

/-- `generateSKU(style, brand, color, size)` on strings. -/
def generateSKU (style brand color size : String) : String :=
  String.mk (generateSKUChars style.data brand.data color.data size.data)

example : generateSKU "AB123" "Nike" "Black" "15 x 32" = "AB123-NK-BLK-15" := by decide
example : generateSKU "  ab 12!3  " "" "" "" = "AB123" := by decide
example : generateSKU "!" "" "" "" = "" := by decide
example : generateSKU "LONGSTYLENUMBER" "" "" "" = "LONGSTYL" := by decide

/-- JS `String.prototype.includes` (substring containment), as a proposition
on the underlying character lists. -/
def strHas (hay needle : String) : Prop :=
  needle.data <:+: hay.data

instance (hay needle : String) : Decidable (strHas hay needle) := by
  unfold strHas; infer_instance

/-- Boolean form of `strHas`, used inside executable definitions. -/
def strHasB (hay needle : String) : Bool :=
  decide (strHas hay needle)

/-- A per-image extraction result object, as produced by the vision endpoint
and consumed by the merge loop in `extractProductData`. Absent string fields
are `""` (JS truthiness does not distinguish them); absent numeric fields
are `none`. -/
structure ExtractedData where
  name : String
  style_number : String
  sku : String
  barcode : String
  brand_name : String
  product_category : String
  retail_price : Option ℚ
  supply_price : Option ℚ
  size_or_dimensions : String
  color : String
  tags : String
  description : String
  notes : String
deriving DecidableEq

/-- The empty object `{}` the merge accumulator starts from. -/
def emptyExtracted : ExtractedData :=
  { name := "", style_number := "", sku := "", barcode := "", brand_name := "",
    product_category := "", retail_price := none, supply_price := none,
    size_or_dimensions := "", color := "", tags := "", description := "",
    notes := "" }

/-- The body of the merge loop in `extractProductData` for a later image
(`i ≥ 1`, 0-based): update `retail_price` when the image's `retail_price`
is truthy and positive, then append its truthy `notes`, tagged with the
1-based image number `i + 1`. -/
def mergeStep (mergedData : ExtractedData) (i : ℕ) (data : ExtractedData) :
    ExtractedData :=
  let m :=
    match data.retail_price with
    | some p => if 0 < p then { mergedData with retail_price := some p } else mergedData
    | none => mergedData
  if data.notes = "" then m
  else if m.notes = "" then
    { m with notes := "Image " ++ toString (i + 1) ++ ": " ++ data.notes }
  else
    { m with notes := m.notes ++ "; Additional from image " ++ toString (i + 1)
        ++ ": " ++ data.notes }

/-- The merge loop over successfully extracted per-image data, indexed from
`i`; at index 0 the image's data replaces the accumulator wholesale. -/
def mergeGo (merged : ExtractedData) (i : ℕ) : List ExtractedData → ExtractedData
  | [] => merged
  | d :: ds => mergeGo (if i = 0 then d else mergeStep merged i d) (i + 1) ds

/-- Merging an ordered list of successful per-image extraction results,
starting from the empty object at image index 0. -/
def mergeAll (datas : List ExtractedData) : ExtractedData :=
  mergeGo emptyExtracted 0 datas

/-- A parsed JSON response of the vision endpoint: a success flag, an
optional error string and a data object. -/
structure ApiResult where
  success : Bool
  error : Option String
  data : ExtractedData
deriving DecidableEq

/-- The rate-limit test of the merge loop:
`result.error && result.error.toLowerCase().includes('rate limit')`. -/
def rateLimited : Option String → Bool
  | some e => strHasB (lowerStr e) "rate limit"
  | none => false

/-- The message thrown for a non-successful result:
`result.error || 'Extraction failed for image (i+1)'`. -/
def failMessage : Option String → ℕ → String
  | some e, i => if e = "" then "Extraction failed for image " ++ toString (i + 1) else e
  | none, i => "Extraction failed for image " ++ toString (i + 1)

/-- Errors thrown by `extractProductData` before the form is touched. -/
inductive ExtractError where
  | timeout
  | serverError (status : ℕ)
  | emptyResponse
  | invalidResponse
  | rateLimit
  | extractionFailed (msg : String)
deriving DecidableEq

/-- The merge loop of `extractProductData` over parsed results: a rate-limit
signal or a non-successful result aborts the whole merge; otherwise the data
objects are merged in image order. -/
def mergeResultsGo (merged : ExtractedData) (i : ℕ) :
    List ApiResult → Except ExtractError ExtractedData
  | [] => .ok merged
  | r :: rs =>
    if rateLimited r.error then .error .rateLimit
    else if r.success = false then .error (.extractionFailed (failMessage r.error i))
    else mergeResultsGo (if i = 0 then r.data else mergeStep merged i r.data) (i + 1) rs

/-- Merging a list of parsed per-image results, aborting on the first
rate-limit signal or failed result. -/
def mergeResults (results : List ApiResult) : Except ExtractError ExtractedData :=
  mergeResultsGo emptyExtracted 0 results

/-- One HTTP response of the vision endpoint as observed by the client:
the `ok` flag and status, the body text, and the outcome of `JSON.parse`
on that text (`none` when parsing throws). -/
structure HttpResponse where
  ok : Bool
  status : ℕ
  text : String
  parsed : Option ApiResult
deriving DecidableEq

/-- The outcome of one `fetchWithTimeout` call: an abort after the 30s
timeout, or a response. -/
inductive FetchResult where
  | timeout
  | response (r : HttpResponse)
deriving DecidableEq

/-- Whether a fetch outcome is the timeout abort. -/
def isTimeoutResult : FetchResult → Bool
  | .timeout => true
  | .response _ => false

/-- The response-checking stage of `extractProductData` for one response:
a non-ok status, an empty/whitespace body, or a body `JSON.parse` rejects
each throw a distinct error. -/
def parseOne : FetchResult → Except ExtractError ApiResult
  | .timeout => .error .timeout
  | .response r =>
    if r.ok = false then .error (.serverError r.status)
    else if trimStr r.text = "" then .error .emptyResponse
    else
      match r.parsed with
      | none => .error .invalidResponse
      | some a => .ok a

/-- Checking and parsing all responses in image order (`Promise.all` over
`responses.map`): the first failing response aborts. -/
def parseAll : List FetchResult → Except ExtractError (List ApiResult)
  | [] => .ok []
  | f :: fs => do
      let a ← parseOne f
      let as ← parseAll fs
      return a :: as

/-- The whole fallible part of `extractProductData`: a timed-out request
rejects the first `Promise.all`; otherwise the responses are checked,
parsed and merged. -/
def runExtractionPipeline (rs : List FetchResult) : Except ExtractError ExtractedData :=
  if rs.any isTimeoutResult then .error .timeout
  else do
    let results ← parseAll rs
    mergeResults results

/-- Whether anything about one fetched image would make the extraction
fail: a timeout, a non-ok status, an empty or unparseable body, a
rate-limit signal, or a reported failure. -/
def responseFailed : FetchResult → Bool
  | .timeout => true
  | .response r =>
    !r.ok || trimStr r.text == "" ||
    (match r.parsed with
     | none => true
     | some a => rateLimited a.error || !a.success)

/-- Whether any image of the run would make the extraction fail. -/
def anyFailure (rs : List FetchResult) : Bool :=
  rs.any responseFailed

/-- The editable product form, as written by `populateForm`. String inputs
hold their text; the price inputs are modelled by the value the code assigns
(`retail_price || 0` is a number, `supply_price || ''` is a number or the
empty string, modelled as `Option`). `barcodeSource` is the barcode input's
`data-source` attribute. -/
structure FormState where
  name : String
  style_number : String
  sku : String
  barcode : String
  barcodeSource : Option String
  quantity : String
  brand_name : String
  product_category : String
  retail_price : ℚ
  supply_price : Option ℚ
  size_or_dimensions : String
  color : String
  tags : String
  description : String
  notes : String
deriving DecidableEq

/-- A form whose every control is empty. -/
def emptyForm : FormState :=
  { name := "", style_number := "", sku := "", barcode := "",
    barcodeSource := none, quantity := "", brand_name := "",
    product_category := "", retail_price := 0, supply_price := none,
    size_or_dimensions := "", color := "", tags := "", description := "",
    notes := "" }

/-- `populateForm(data)` from form-manager.js: write each mapped field from
the extraction record (`data.style_number || data.sku` for the style input;
the barcode input only when its `data-source` is not `"scanned"`), then
derive the SKU from the freshly written style/brand/color/size inputs,
writing it only when non-empty. -/
def populateForm (form : FormState) (data : ExtractedData) : FormState :=
  let f := { form with
    name := data.name,
    style_number := if data.style_number = "" then data.sku else data.style_number,
    brand_name := data.brand_name,
    product_category := data.product_category,
    retail_price := data.retail_price.getD 0,
    supply_price := match data.supply_price with
      | some p => if p = 0 then none else some p
      | none => none,
    size_or_dimensions := data.size_or_dimensions,
    color := data.color,
    tags := data.tags,
    description := data.description,
    notes := data.notes }
  let f := if form.barcodeSource = some "scanned" then f
    else { f with barcode := data.barcode }
  let generatedSKU := generateSKU f.style_number f.brand_name f.color f.size_or_dimensions
  if generatedSKU = "" then f else { f with sku := generatedSKU }

/-- The slice of process-wide state touched by `extractProductData`:
the form, `state.extractedData`, how many times `populateForm` ran, and
whether the completion announcement fired. -/
structure AppState where
  form : FormState
  extractedData : Option ExtractedData
  populateCount : ℕ
  completeAnnounced : Bool
deriving DecidableEq

/-- The success tail of `extractProductData`: store the merged record,
populate the form from it, and announce completion. -/
def applyExtractionSuccess (st : AppState) (merged : ExtractedData) : AppState :=
  { st with
    extractedData := some merged,
    form := populateForm st.form merged,
    populateCount := st.populateCount + 1,
    completeAnnounced := true }

/-- `extractProductData(images)` as a state transformer over the fetch
outcomes of the per-image requests: any thrown error is caught, leaving the
form and stored extraction state untouched; only a fully successful merge
reaches the form. -/
def extractProductData (st : AppState) (responses : List FetchResult) : AppState :=
  match runExtractionPipeline responses with
  | .error _ => st
  | .ok merged => applyExtractionSuccess st merged

deriving instance DecidableEq for Except

/-- Image A of the worked two-image example: `name "X"`, `retail_price 10`,
no notes. -/
def dataA : ExtractedData :=
  { emptyExtracted with name := "X", retail_price := some 10 }

/-- Image B of the worked two-image example: `retail_price 15`,
`notes "dented"`. -/
def dataB : ExtractedData :=
  { emptyExtracted with retail_price := some 15, notes := "dented" }

example : (mergeAll [dataA, dataB]).notes = "Image 2: dented" := by decide
example : (mergeAll [dataA, dataB]).retail_price = some 15 := by decide
example : (mergeAll [dataA, dataB]).name = "X" := by decide
example :
    mergeResults [⟨true, none, dataA⟩, ⟨true, none, dataB⟩]
      = .ok (mergeAll [dataA, dataB]) := by decide
example :
    runExtractionPipeline [.response ⟨true, 200, "x", some ⟨true, none, dataA⟩⟩]
      = .ok dataA := by decide
example :
    runExtractionPipeline [.response ⟨true, 200, "x", some ⟨true, some "Rate Limit hit", dataA⟩⟩]
      = .error .rateLimit := by decide

/-- The outcome of a `saveProduct` call: a server success or a thrown error
carrying the extracted message
(`errorData.message || errorData.error || errorData.hint || ...`). -/
inductive SaveResponse where
  | ok
  | fail (errorMessage : String)
deriving DecidableEq

/-- What the `saveProduct` flow leaves on screen: whether the duplicate
modal was shown and with which message, the status banner text, and whether
`form.reset()` ran. -/
structure SaveUiOutcome where
  duplicateModalShown : Bool
  duplicateMessage : String
  statusMessage : String
  formCleared : Bool
deriving DecidableEq

/-- The duplicate test of the `saveProduct` catch block: the error text
mentions `duplicate` or `unique` (case-insensitively) or the Postgres
unique-violation code `23505`. -/
def isDuplicateError (msg : String) : Bool :=
  strHasB (lowerStr msg) "duplicate" || strHasB (lowerStr msg) "unique" ||
  strHasB msg "23505"

/-- The colliding-field classification of the duplicate modal message. -/
def duplicateField (msg : String) : String :=
  if strHasB (lowerStr msg) "sku" || strHasB msg "unique_sku" then
    "A product with this SKU"
  else if strHasB (lowerStr msg) "barcode" || strHasB msg "unique_barcode" then
    "A product with this barcode"
  else "This product"

/-- The visible outcome of `saveProduct` on a response: on success the form
is reset; a duplicate error routes to the duplicate modal with a
field-specific message and leaves the form intact; other errors surface a
status banner, also leaving the form intact. -/
def saveProductOutcome : SaveResponse → SaveUiOutcome
  | .ok =>
    { duplicateModalShown := false, duplicateMessage := "",
      statusMessage := "✅ Product saved successfully!", formCleared := true }
  | .fail msg =>
    if isDuplicateError msg then
      { duplicateModalShown := true,
        duplicateMessage := duplicateField msg ++ " already exists in the database",
        statusMessage := "", formCleared := false }
    else if strHasB msg "violates" then
      { duplicateModalShown := false, duplicateMessage := "",
        statusMessage := "⚠️ DATABASE ERROR: " ++ msg, formCleared := false }
    else
      { duplicateModalShown := false, duplicateMessage := "",
        statusMessage := "❌ SAVE ERROR: " ++ msg, formCleared := false }

/-- The message the user sees for an outcome: the duplicate modal's message
when it was shown, the status banner otherwise. -/
def surfacedMessage (o : SaveUiOutcome) : String :=
  if o.duplicateModalShown then o.duplicateMessage else o.statusMessage

/-- A row of the `products` table, with its unique keys. -/
structure Product where
  id : ℕ
  name : String
  barcode : Option String
  sku : Option String
deriving DecidableEq

/-- The slice of state and UI touched by the barcode duplicate pre-check:
the editing id, the id found by the pre-check, and the warning element. -/
structure PrecheckUi where
  editingId : Option ℕ
  duplicateProductId : Option ℕ
  warningVisible : Bool
  warningText : String
deriving DecidableEq

/-- `checkBarcodeExists(barcode)` from database.js over a table snapshot:
skipped entirely while editing; clears the warning for an empty or
non-12/13-length input; otherwise looks the barcode up and shows or clears
the warning. The boolean reports whether the lookup was performed. -/
def checkBarcodeExists (db : List Product) (ui : PrecheckUi) (barcode : String) :
    PrecheckUi × Bool :=
  if ui.editingId.isSome then (ui, false)
  else if barcode = "" ∨ (barcode.length ≠ 12 ∧ barcode.length ≠ 13) then
    ({ ui with warningVisible := false, warningText := "" }, false)
  else
    match db.filter (fun p => p.barcode == some barcode) with
    | [] =>
      ({ ui with
          duplicateProductId := none
          warningVisible := false
          warningText := "" }, true)
    | p :: _ =>
      ({ ui with
          duplicateProductId := some p.id
          warningVisible := true
          warningText := "⚠️ Already in database: "
            ++ (if p.name = "" then "Unknown product" else p.name)
            ++ " (ID: " ++ toString p.id ++ ")" }, true)

/-- The anchored `\d` barcode test of the debounced listener in app.js:
exactly 12 or 13 digits. -/
def isCompleteBarcodeInput (v : String) : Bool :=
  v.data.all Char.isDigit && (v.length == 12 || v.length == 13)

/-- The debounced input listener wiring of app.js: after the debounce
delay, `checkBarcodeExists` runs only when the (trimmed) input is a
complete 12/13-digit barcode. -/
def debouncedBarcodeCheck (db : List Product) (ui : PrecheckUi) (value : String) :
    PrecheckUi × Bool :=
  if isCompleteBarcodeInput value then checkBarcodeExists db ui value
  else (ui, false)

/-- The rows matching a supplied id filter (`id=eq.`); no query is issued
for an unsupplied key. -/
def byIdMatches (db : List Product) : Option ℕ → List Product
  | some i => db.filter (fun p => p.id == i)
  | none => []

/-- The rows matching a supplied barcode filter (`barcode=eq.`). -/
def byBarcodeMatches (db : List Product) : Option String → List Product
  | some b => db.filter (fun p => p.barcode == some b)
  | none => []

/-- The rows matching a supplied sku filter (`sku=eq.`). -/
def bySkuMatches (db : List Product) : Option String → List Product
  | some s => db.filter (fun p => p.sku == some s)
  | none => []

/-- `fetchProductForEdit(productId, barcode, sku)` from database.js over a
table snapshot: all supplied keys are looked up and the first non-empty
result in priority order id, barcode, sku supplies the record. -/
def fetchProductForEdit (db : List Product) (productId : Option ℕ)
    (barcode : Option String) (sku : Option String) : Option Product :=
  let byId := byIdMatches db productId
  let byBarcode := byBarcodeMatches db barcode
  let bySku := bySkuMatches db sku
  if byId ≠ [] then byId.head?
  else if byBarcode ≠ [] then byBarcode.head?
  else if bySku ≠ [] then bySku.head?
  else none

/-- The output dimension computation shared by both `compressImageToWebP`
implementations: `scale = min(1, maxWidth / width)`, then floor both scaled
dimensions. Arithmetic is modelled exactly over `ℚ`. -/
def computeScaledDims (maxWidth w h : ℕ) : ℕ × ℕ :=
  let scale : ℚ := min 1 ((maxWidth : ℚ) / (w : ℚ))
  ((⌊(w : ℚ) * scale⌋).toNat, (⌊(h : ℚ) * scale⌋).toNat)

example : computeScaledDims 1920 4000 3000 = (1920, 1440) := by
  norm_num [computeScaledDims]
  decide
example : computeScaledDims 1920 640 480 = (640, 480) := by
  norm_num [computeScaledDims]
  decide

/-- The numeric value of a list of decimal digits. -/
def digitsVal (ds : List Char) : ℕ :=
  ds.foldl (fun a c => 10 * a + (c.toNat - 48)) 0

/-- Whether a character is a hexadecimal digit. -/
def isHexDigitChar (c : Char) : Bool :=
  c.isDigit || ('a' ≤ c && c ≤ 'f') || ('A' ≤ c && c ≤ 'F')

/-- The numeric value of a list of hexadecimal digits. -/
def hexDigitsVal (ds : List Char) : ℕ :=
  ds.foldl (fun a c =>
    16 * a + (if c.isDigit then c.toNat - 48
              else if 'a' ≤ c && c ≤ 'f' then c.toNat - 87
              else c.toNat - 55)) 0

/-- The JS builtin `parseFloat`, modelled on finite decimal numerals
(optional leading whitespace and sign, decimal digits with an optional
fraction and an optional well-formed exponent; `Infinity` literals are not
modelled). `none` stands for `NaN`. -/
def jsParseFloat (s : String) : Option ℚ :=
  let cs := s.data.dropWhile isSpaceChar
  let sgn : ℚ := match cs with
    | '-' :: _ => -1
    | _ => 1
  let cs1 : List Char := match cs with
    | '-' :: r => r
    | '+' :: r => r
    | _ => cs
  let intDs := cs1.takeWhile Char.isDigit
  let rest1 := cs1.dropWhile Char.isDigit
  let fracDs : List Char := match rest1 with
    | '.' :: r => r.takeWhile Char.isDigit
    | _ => []
  let rest2 : List Char := match rest1 with
    | '.' :: r => r.dropWhile Char.isDigit
    | _ => rest1
  if intDs.isEmpty && fracDs.isEmpty then none
  else
    let mantissa : ℚ :=
      (digitsVal intDs : ℚ) + (digitsVal fracDs : ℚ) / ((10 : ℚ) ^ fracDs.length)
    let expVal : ℤ := match rest2 with
      | c :: r =>
        if c = 'e' ∨ c = 'E' then
          let esgn : ℤ := match r with
            | '-' :: _ => -1
            | _ => 1
          let r1 : List Char := match r with
            | '-' :: rr => rr
            | '+' :: rr => rr
            | _ => r
          let eds := r1.takeWhile Char.isDigit
          if eds.isEmpty then 0 else esgn * (digitsVal eds : ℤ)
        else 0
      | [] => 0
    some (sgn * mantissa * (10 : ℚ) ^ expVal)

/-- The JS builtin `parseInt` with no radix argument: optional leading
whitespace and sign, then either a `0x`/`0X` hexadecimal numeral or a
decimal digit run; `none` stands for `NaN`. -/
def jsParseInt (s : String) : Option ℤ :=
  let cs := s.data.dropWhile isSpaceChar
  let sgn : ℤ := match cs with
    | '-' :: _ => -1
    | _ => 1
  let cs1 : List Char := match cs with
    | '-' :: r => r
    | '+' :: r => r
    | _ => cs
  let hexRest : Option (List Char) := match cs1 with
    | '0' :: x :: r => if x = 'x' ∨ x = 'X' then some r else none
    | _ => none
  match hexRest with
  | some r =>
    let ds := r.takeWhile isHexDigitChar
    if ds.isEmpty then none else some (sgn * (hexDigitsVal ds : ℤ))
  | none =>
    let ds := cs1.takeWhile Char.isDigit
    if ds.isEmpty then none else some (sgn * (digitsVal ds : ℤ))

example : jsParseFloat "12.5" = some (25 / 2) := by
  simp +decide [jsParseFloat, digitsVal] <;> norm_num
example : jsParseFloat "" = none := by decide
example : jsParseFloat "abc" = none := by decide
example : jsParseFloat "-0" = some 0 := by
  simp +decide [jsParseFloat, digitsVal] <;> norm_num
example : jsParseFloat "2e1" = some 20 := by
  simp +decide [jsParseFloat, digitsVal] <;> norm_num
example : jsParseFloat ".5" = some (1 / 2) := by
  simp +decide [jsParseFloat, digitsVal] <;> norm_num
example : jsParseInt "42abc" = some 42 := by decide
example : jsParseInt "12.9" = some 12 := by decide
example : jsParseInt "" = none := by decide
example : jsParseInt "0x10" = some 16 := by decide

/-- The raw text of every form control, as read through `.value` by
`collectFormData`. -/
structure FormInputs where
  name : String
  style_number : String
  sku : String
  barcode : String
  brand_name : String
  product_category : String
  retail_price : String
  supply_price : String
  size_or_dimensions : String
  color : String
  quantity : String
  tags : String
  description : String
  notes : String
deriving DecidableEq

/-- The record `collectFormData` builds for the save request. -/
structure CollectedData where
  name : String
  style_number : Option String
  sku : Option String
  barcode : Option String
  brand_name : Option String
  product_category : Option String
  retail_price : Option ℚ
  supply_price : Option ℚ
  size_or_dimensions : Option String
  color : Option String
  quantity : ℤ
  tags : Option String
  description : Option String
  notes : Option String
deriving DecidableEq

/-- JS `value || null` on a text input. -/
def orNullStr (s : String) : Option String :=
  if s = "" then none else some s

/-- JS `parseFloat(value) || null`: `NaN` and `0` both collapse to `null`. -/
def parseFloatOrNull (s : String) : Option ℚ :=
  match jsParseFloat s with
  | some q => if q = 0 then none else some q
  | none => none

/-- JS `parseInt(value) || 1`: `NaN` and `0` both collapse to `1`. -/
def parseIntOrOne (s : String) : ℤ :=
  match jsParseInt s with
  | some z => if z = 0 then 1 else z
  | none => 1

/-- `collectFormData()` from form-manager.js: read every control back,
upper-casing a non-empty SKU and mapping an empty one to `null`, coercing
the price inputs through `parseFloat(v) || null` and the quantity through
`parseInt(v) || 1`, and mapping other empty text inputs to `null`. -/
def collectFormData (f : FormInputs) : CollectedData :=
  { name := f.name,
    style_number := orNullStr f.style_number,
    sku := if f.sku = "" then none else some (upperStr f.sku),
    barcode := orNullStr f.barcode,
    brand_name := orNullStr f.brand_name,
    product_category := orNullStr f.product_category,
    retail_price := parseFloatOrNull f.retail_price,
    supply_price := parseFloatOrNull f.supply_price,
    size_or_dimensions := orNullStr f.size_or_dimensions,
    color := orNullStr f.color,
    quantity := parseIntOrOne f.quantity,
    tags := orNullStr f.tags,
    description := orNullStr f.description,
    notes := orNullStr f.notes }

lemma mk_eq_empty_iff (l : List Char) : String.mk l = "" ↔ l = [] := by
  simp [String.ext_iff]

lemma styleCodeOf_eq_nil_iff (style : List Char) :
    styleCodeOf style = [] ↔ cleanedStyle style = [] := by
  unfold styleCodeOf
  dsimp only
  split
  · rename_i h
    simp only [List.take_eq_nil_iff]
    constructor
    · rintro (h8 | hc)
      · omega
      · exact hc
    · intro hc
      exact Or.inr hc
  · exact Iff.rfl

lemma rawSKU_eq_nil_iff (style brand color size : List Char) :
    rawSKU style brand color size = [] ↔
      cleanedStyle style = [] ∧ brand = [] ∧ color = [] ∧ size = [] := by
  unfold rawSKU
  simp only [List.append_eq_nil, styleCodeOf_eq_nil_iff]
  constructor
  · rintro ⟨⟨⟨hs, hb⟩, hc⟩, hz⟩
    refine ⟨hs, ?_, ?_, ?_⟩
    · by_contra h; simp [h] at hb
    · by_contra h; simp [h] at hc
    · by_contra h; simp [h] at hz
  · rintro ⟨hs, hb, hc, hz⟩
    simp [hs, hb, hc, hz]

/-- C1 (counterexample): for the style input `"!"` (non-empty after
trimming) with empty brand/color/size, `generateSKU` returns the empty
string, so the SKU is not empty exactly when the style input is non-empty. -/
theorem generateSKU_empty_iff_counterexample :
    generateSKU "!" "" "" "" = "" ∧ trimStr "!" ≠ "" := by
  constructor
  · decide
  · decide

/-- C1 (amended): the derived SKU never exceeds 15 characters; it is empty
iff the trimmed style is empty, or the style survives cleaning with no
characters while brand, color and size are all empty after trimming. -/
theorem generateSKU_length_le_and_empty_iff (style brand color size : String) :
    (generateSKU style brand color size).length ≤ 15 ∧
    (generateSKU style brand color size = "" ↔
      trimList style.data = [] ∨
      (cleanedStyle (trimList style.data) = [] ∧ trimList brand.data = [] ∧
       trimList color.data = [] ∧ trimList size.data = [])) := by
  unfold generateSKU
  rw [mk_eq_empty_iff]
  show (generateSKUChars style.data brand.data color.data size.data).length ≤ 15 ∧ _
  unfold generateSKUChars
  by_cases hs : trimList style.data = []
  · simp [hs]
  · simp only [hs, if_false, if_neg hs]
    constructor
    · split
      · rename_i h
        simp only [List.length_take]
        omega
      · rename_i h
        omega
    · rw [show ∀ l : List Char, (if l.length > 15 then l.take 15 else l) = [] ↔ l = []
        from ?_, rawSKU_eq_nil_iff]
      · simp [hs]
      · intro l
        split
        · rename_i h
          simp only [List.take_eq_nil_iff]
          constructor
          · rintro (h15 | hl)
            · omega
            · exact hl
          · exact Or.inr
        · exact Iff.rfl

/-- Records `a` and `b` agree on every field other than `retail_price` and
`notes`. -/
def framePreserved (a b : ExtractedData) : Prop :=
  a.name = b.name ∧ a.style_number = b.style_number ∧ a.sku = b.sku ∧
  a.barcode = b.barcode ∧ a.brand_name = b.brand_name ∧
  a.product_category = b.product_category ∧ a.supply_price = b.supply_price ∧
  a.size_or_dimensions = b.size_or_dimensions ∧ a.color = b.color ∧
  a.tags = b.tags ∧ a.description = b.description

lemma framePreserved_refl (a : ExtractedData) : framePreserved a a := by
  unfold framePreserved
  repeat' constructor

lemma framePreserved_trans {a b c : ExtractedData}
    (h1 : framePreserved a b) (h2 : framePreserved b c) : framePreserved a c := by
  unfold framePreserved at h1 h2 ⊢
  obtain ⟨e1, e2, e3, e4, e5, e6, e7, e8, e9, e10, e11⟩ := h1
  obtain ⟨f1, f2, f3, f4, f5, f6, f7, f8, f9, f10, f11⟩ := h2
  exact ⟨e1.trans f1, e2.trans f2, e3.trans f3, e4.trans f4, e5.trans f5,
    e6.trans f6, e7.trans f7, e8.trans f8, e9.trans f9, e10.trans f10,
    e11.trans f11⟩

lemma mergeStep_frame (m : ExtractedData) (i : ℕ) (d : ExtractedData) :
    framePreserved (mergeStep m i d) m := by
  unfold mergeStep framePreserved
  rcases d.retail_price with _ | p <;> dsimp only <;>
    (split <;> (try split) <;> (try split) <;> simp_all)

lemma mergeGo_frame (ds : List ExtractedData) :
    ∀ (m : ExtractedData) (i : ℕ), 1 ≤ i → framePreserved (mergeGo m i ds) m := by
  induction ds with
  | nil => intro m i _; exact framePreserved_refl m
  | cons d tl ih =>
    intro m i hi
    have hne : i ≠ 0 := by omega
    rw [mergeGo, if_neg hne]
    exact framePreserved_trans (ih (mergeStep m i d) (i + 1) (by omega))
      (mergeStep_frame m i d)

lemma mergeGo_append (d : ExtractedData) (ds : List ExtractedData) :
    ∀ (m : ExtractedData) (i : ℕ), 1 ≤ i →
      mergeGo m i (ds ++ [d]) = mergeStep (mergeGo m i ds) (i + ds.length) d := by
  induction ds with
  | nil =>
    intro m i hi
    have hne : i ≠ 0 := by omega
    simp [mergeGo, if_neg hne]
  | cons a tl ih =>
    intro m i hi
    have hne : i ≠ 0 := by omega
    rw [List.cons_append, mergeGo, if_neg hne, mergeGo, if_neg hne,
      ih (mergeStep m i a) (i + 1) (by omega)]
    congr 1
    simp
    omega

lemma mergeStep_retail_price (m : ExtractedData) (i : ℕ) (d : ExtractedData) :
    (mergeStep m i d).retail_price =
      match d.retail_price with
      | some p => if 0 < p then some p else m.retail_price
      | none => m.retail_price := by
  unfold mergeStep
  rcases d.retail_price with _ | p <;> dsimp only <;>
    (split <;> (try split) <;> (try split) <;> simp_all)

lemma mergeStep_notes (m : ExtractedData) (i : ℕ) (d : ExtractedData) :
    (mergeStep m i d).notes =
      (if d.notes = "" then m.notes
       else if m.notes = "" then "Image " ++ toString (i + 1) ++ ": " ++ d.notes
       else m.notes ++ "; Additional from image " ++ toString (i + 1)
         ++ ": " ++ d.notes) := by
  unfold mergeStep
  rcases d.retail_price with _ | p <;> dsimp only <;>
    (split <;> (try split) <;> (try split) <;> (try split) <;> simp_all)

/-- C2 (amended): in the extraction merge, image 0 supplies every field; a
later image at 0-based index `k` acts on the accumulated record through
`mergeStep`, which preserves every field except `retail_price` and `notes`,
overwrites `retail_price` exactly when the image's price is positive, and
appends the image's notes as
`"<previous>; Additional from image <k+1>: <new>"`, or as
`"Image <k+1>: <new>"` when no previous notes existed (image numbers in the
appended text are 1-based). -/
theorem mergeAll_first_image_priority (d0 d m : ExtractedData)
    (ds : List ExtractedData) (k : ℕ) :
    framePreserved (mergeAll (d0 :: ds)) d0 ∧
    mergeAll [d0] = d0 ∧
    mergeAll ((d0 :: ds) ++ [d]) = mergeStep (mergeAll (d0 :: ds)) (ds.length + 1) d ∧
    framePreserved (mergeStep m k d) m ∧
    (mergeStep m k d).retail_price =
      (match d.retail_price with
       | some p => if 0 < p then some p else m.retail_price
       | none => m.retail_price) ∧
    (mergeStep m k d).notes =
      (if d.notes = "" then m.notes
       else if m.notes = "" then "Image " ++ toString (k + 1) ++ ": " ++ d.notes
       else m.notes ++ "; Additional from image " ++ toString (k + 1)
         ++ ": " ++ d.notes) := by
  refine ⟨?_, ?_, ?_, mergeStep_frame m k d, mergeStep_retail_price m k d,
    mergeStep_notes m k d⟩
  · rw [mergeAll, mergeGo, if_pos rfl]
    exact mergeGo_frame ds d0 1 le_rfl
  · rw [mergeAll, mergeGo, if_pos rfl, mergeGo]
  · rw [List.cons_append, mergeAll, mergeGo, if_pos rfl, mergeAll, mergeGo,
      if_pos rfl, mergeGo_append d ds d0 1 le_rfl]
    congr 1
    omega

/-- C2 (counterexample): with image A carrying no notes and image B carrying
notes `"dented"`, the merged notes are `"Image 2: dented"`, not just the new
text `"dented"` as the claim states for the no-previous-notes case. -/
theorem merge_notes_prefix_counterexample :
    (mergeAll [dataA, dataB]).notes = "Image 2: dented" ∧
    (mergeAll [dataA, dataB]).notes ≠ dataB.notes := by
  constructor
  · decide
  · decide

/-- C3: merging the two-image run where image A yields
`name "X", retail_price 10` and image B yields
`retail_price 15, notes "dented"` succeeds and produces
`retail_price = 15`, `notes = "Image 2: dented"`, `name = "X"`. -/
theorem merge_two_image_example :
    mergeResults [⟨true, none, dataA⟩, ⟨true, none, dataB⟩]
        = .ok (mergeAll [dataA, dataB]) ∧
    (mergeAll [dataA, dataB]).retail_price = some 15 ∧
    (mergeAll [dataA, dataB]).notes = "Image 2: dented" ∧
    (mergeAll [dataA, dataB]).name = "X" := by
  refine ⟨?_, ?_, ?_, ?_⟩ <;> decide

lemma responseFailed_of_parseOne_ok {f : FetchResult} {a : ApiResult}
    (h : parseOne f = .ok a) :
    responseFailed f = (rateLimited a.error || !a.success) := by
  cases f with
  | timeout => simp [parseOne] at h
  | response r =>
    simp only [parseOne] at h
    simp only [responseFailed]
    by_cases h1 : r.ok = false
    · simp [h1] at h
    · rw [if_neg h1] at h
      have hok : r.ok = true := by cases hr : r.ok <;> simp_all
      by_cases h2 : trimStr r.text = ""
      · simp [h2] at h
      · rw [if_neg h2] at h
        cases hp : r.parsed with
        | none => rw [hp] at h; simp at h
        | some a2 =>
          rw [hp] at h
          simp only [Except.ok.injEq] at h
          subst h
          simp [hok, h2]

lemma mergeResultsGo_ok_forall (results : List ApiResult) :
    ∀ (acc : ExtractedData) (i : ℕ) (x : ExtractedData),
      mergeResultsGo acc i results = .ok x →
      ∀ r ∈ results, rateLimited r.error = false ∧ r.success = true := by
  induction results with
  | nil => intro acc i x _ r hr; cases hr
  | cons a tl ih =>
    intro acc i x h r hr
    rw [mergeResultsGo] at h
    by_cases hrl : rateLimited a.error = true
    · rw [if_pos hrl] at h; cases h
    · rw [if_neg hrl] at h
      have hrl2 : rateLimited a.error = false := by
        cases hv : rateLimited a.error <;> simp_all
      by_cases hsc : a.success = false
      · rw [if_pos hsc] at h; cases h
      · rw [if_neg hsc] at h
        have hsc2 : a.success = true := by cases hv : a.success <;> simp_all
        rcases List.mem_cons.mp hr with hr1 | hr1
        · subst hr1; exact ⟨hrl2, hsc2⟩
        · exact ih _ (i + 1) x h r hr1

lemma parse_merge_ok_no_failure (rs : List FetchResult) :
    ∀ (acc : ExtractedData) (i : ℕ) (x : ExtractedData),
      (parseAll rs >>= fun results => mergeResultsGo acc i results) = .ok x →
      rs.any responseFailed = false := by
  induction rs with
  | nil => intro acc i x _; rfl
  | cons f fs ih =>
    intro acc i x h
    rw [parseAll] at h
    cases hf : parseOne f with
    | error e =>
      rw [hf] at h
      simp [Bind.bind, Except.bind] at h
    | ok a =>
      rw [hf] at h
      cases hfs : parseAll fs with
      | error e =>
        rw [hfs] at h
        simp [Bind.bind, Except.bind] at h
      | ok as =>
        rw [hfs] at h
        simp only [Bind.bind, Except.bind, pure, Except.pure] at h
        rw [mergeResultsGo] at h
        by_cases hrl : rateLimited a.error = true
        · rw [if_pos hrl] at h; cases h
        · rw [if_neg hrl] at h
          by_cases hsc : a.success = false
          · rw [if_pos hsc] at h; cases h
          · rw [if_neg hsc] at h
            have hsc2 : a.success = true := by cases hv : a.success <;> simp_all
            have hrl2 : rateLimited a.error = false := by
              cases hv : rateLimited a.error <;> simp_all
            have htl : fs.any responseFailed = false := by
              apply ih (if i = 0 then a.data else mergeStep acc i a.data) (i + 1) x
              rw [hfs]
              simpa [Bind.bind, Except.bind] using h
            rw [List.any_cons, htl, responseFailed_of_parseOne_ok hf, hrl2, hsc2]
            rfl

lemma runPipeline_ok_no_failure {rs : List FetchResult} {x : ExtractedData}
    (h : runExtractionPipeline rs = .ok x) : anyFailure rs = false := by
  unfold runExtractionPipeline at h
  by_cases ht : rs.any isTimeoutResult = true
  · rw [if_pos ht] at h; cases h
  · rw [if_neg ht] at h
    exact parse_merge_ok_no_failure rs emptyExtracted 0 x
      (by simpa [mergeResults] using h)

/-- C4: when any image's request times out, returns a non-ok status, an
empty or unparseable body, signals a rate limit, or reports failure, the
caught error leaves the whole application state — form, stored extraction
data, populate count, completion announcement — untouched; the form is
populated and completion announced exactly when the whole pipeline merges
successfully. -/
theorem extraction_failure_no_partial_merge (st : AppState) (rs : List FetchResult) :
    (anyFailure rs = true → extractProductData st rs = st) ∧
    (∀ m, runExtractionPipeline rs = .ok m →
      extractProductData st rs = applyExtractionSuccess st m ∧ anyFailure rs = false) := by
  constructor
  · intro h
    unfold extractProductData
    cases hp : runExtractionPipeline rs with
    | error e => rfl
    | ok m =>
      have h2 := runPipeline_ok_no_failure hp
      rw [anyFailure] at h2
      rw [anyFailure] at h
      rw [h2] at h
      cases h
  · intro m hp
    refine ⟨?_, runPipeline_ok_no_failure hp⟩
    unfold extractProductData
    rw [hp]

/-- The app state before an extraction run in the witness scenarios. -/
def st0 : AppState :=
  { form := emptyForm, extractedData := none, populateCount := 0,
    completeAnnounced := false }

/-- A fully successful response carrying image A's data. -/
def goodResp : FetchResult :=
  .response { ok := true, status := 200, text := "x", parsed := some ⟨true, none, dataA⟩ }

/-- C4 (witness): a timed-out run leaves the state untouched, and a fully
successful single-image run populates the form with the merged record. -/
theorem extraction_failure_no_partial_merge_witness :
    anyFailure [FetchResult.timeout] = true ∧
    extractProductData st0 [FetchResult.timeout] = st0 ∧
    runExtractionPipeline [goodResp] = .ok dataA ∧
    extractProductData st0 [goodResp] = applyExtractionSuccess st0 dataA :=
  ⟨by decide,
   (extraction_failure_no_partial_merge st0 [FetchResult.timeout]).1 (by decide),
   by decide,
   ((extraction_failure_no_partial_merge st0 [goodResp]).2 dataA (by decide)).1⟩

/-- C6: a populate call never touches the barcode input when its
`data-source` is `"scanned"` (even when the record carries a barcode), and
writes every mapped field from the record — name, style (falling back to
the record's sku), brand, category, retail and supply price, size, color,
tags, description, notes — with the SKU re-derived from the freshly written
fields and written only when non-empty. -/
theorem populateForm_scanned_barcode_frame (form : FormState) (data : ExtractedData) :
    (populateForm form data).barcodeSource = form.barcodeSource ∧
    (form.barcodeSource = some "scanned" →
      (populateForm form data).barcode = form.barcode) ∧
    (form.barcodeSource ≠ some "scanned" →
      (populateForm form data).barcode = data.barcode) ∧
    (populateForm form data).name = data.name ∧
    (populateForm form data).style_number =
      (if data.style_number = "" then data.sku else data.style_number) ∧
    (populateForm form data).brand_name = data.brand_name ∧
    (populateForm form data).product_category = data.product_category ∧
    (populateForm form data).retail_price = data.retail_price.getD 0 ∧
    (populateForm form data).supply_price =
      (match data.supply_price with
       | some p => if p = 0 then none else some p
       | none => none) ∧
    (populateForm form data).size_or_dimensions = data.size_or_dimensions ∧
    (populateForm form data).color = data.color ∧
    (populateForm form data).tags = data.tags ∧
    (populateForm form data).description = data.description ∧
    (populateForm form data).notes = data.notes ∧
    (populateForm form data).sku =
      (if generateSKU (if data.style_number = "" then data.sku else data.style_number)
          data.brand_name data.color data.size_or_dimensions = ""
       then form.sku
       else generateSKU (if data.style_number = "" then data.sku else data.style_number)
          data.brand_name data.color data.size_or_dimensions) := by
  unfold populateForm
  dsimp only
  by_cases hb : form.barcodeSource = some "scanned"
  · rw [if_pos hb]
    refine ⟨?_, ?_, ?_, ?_, ?_, ?_, ?_, ?_, ?_, ?_, ?_, ?_, ?_, ?_, ?_⟩ <;>
      (try intro hbc) <;> (try split) <;> (try split) <;> simp_all
  · rw [if_neg hb]
    refine ⟨?_, ?_, ?_, ?_, ?_, ?_, ?_, ?_, ?_, ?_, ?_, ?_, ?_, ?_, ?_⟩ <;>
      (try intro hbc) <;> (try split) <;> (try split) <;> simp_all

/-- The form after a barcode scan: the scanned code is in the barcode input
and its `data-source` attribute is `"scanned"`. -/
def scannedForm : FormState :=
  { emptyForm with barcode := "012345678905", barcodeSource := some "scanned" }

/-- An extraction record that carries a conflicting barcode. -/
def dataWithBarcode : ExtractedData :=
  { emptyExtracted with name := "X", barcode := "111222333444" }

/-- C6 (witness): populating over a scanned barcode leaves the scanned code
in place even though the record carries a different barcode. -/
theorem populateForm_scanned_barcode_frame_witness :
    (populateForm scannedForm dataWithBarcode).barcode = "012345678905" ∧
    dataWithBarcode.barcode = "111222333444" := by
  constructor
  · have h := (populateForm_scanned_barcode_frame scannedForm dataWithBarcode).2.1 (by decide)
    rw [h]
    decide
  · decide

lemma data_append (a b : String) : (a ++ b).data = a.data ++ b.data := rfl

lemma not_infix_append (n p m : List Char)
    (h1 : ¬ n <:+: p) (h2 : ¬ n <:+: m)
    (h3 : ∀ i, 0 < i → i < n.length → ¬ (n.take i <:+ p)) :
    ¬ n <:+: (p ++ m) := by
  rintro ⟨u, v, huv⟩
  by_cases hc1 : p.length ≤ u.length
  · have h4 : u <+: p ++ m := ⟨n ++ v, by simpa [List.append_assoc] using huv⟩
    have h5 : p <+: u :=
      List.prefix_of_prefix_length_le (List.prefix_append p m) h4 hc1
    obtain ⟨u2, rfl⟩ := h5
    apply h2
    refine ⟨u2, v, ?_⟩
    apply @List.append_cancel_left Char p _ _
    simpa [List.append_assoc] using huv
  · push_neg at hc1
    by_cases hc2 : u.length + n.length ≤ p.length
    · have h4 : u ++ n <+: p ++ m := ⟨v, by simpa [List.append_assoc] using huv⟩
      have h5 : u ++ n <+: p :=
        List.prefix_of_prefix_length_le h4 (List.prefix_append p m)
          (by simpa using hc2)
      exact h1 ((List.suffix_append u n).isInfix.trans h5.isInfix)
    · push_neg at hc2
      have hi1 : 0 < p.length - u.length := by omega
      have hi2 : p.length - u.length < n.length := by omega
      apply h3 (p.length - u.length) hi1 hi2
      have hsplit : (u ++ n.take (p.length - u.length))
          ++ (n.drop (p.length - u.length) ++ v) = p ++ m := by
        rw [List.append_assoc, ← List.append_assoc (n.take (p.length - u.length)),
          List.take_append_drop, ← List.append_assoc]
        exact huv
      have hlen : (u ++ n.take (p.length - u.length)).length = p.length := by
        simp only [List.length_append, List.length_take]
        omega
      exact ⟨u, (List.append_inj hsplit hlen).1⟩

lemma strHas_lower {s n : String} (h : strHas s n) :
    strHas (lowerStr s) (lowerStr n) := by
  show (n.data.map Char.toLower) <:+: (s.data.map Char.toLower)
  exact List.IsInfix.map Char.toLower h

lemma strHas_of_strHas_of_sub {s n1 n2 : String}
    (h : strHas s n1) (h2 : n2.data <:+: n1.data) : strHas s n2 :=
  List.IsInfix.trans h2 h

/-- C5: a save failing with a uniqueness violation surfaces a
field-classified duplicate message — one mentioning `"SKU"` when the error
text mentions the sku, one mentioning `"barcode"` when it mentions the
barcode (and not the sku) — without clearing the form; a non-duplicate
error whose text mentions neither surfaces a message mentioning neither. -/
theorem save_duplicate_classification (msg : String) :
    (isDuplicateError msg = true → strHas (lowerStr msg) "sku" →
      strHas (surfacedMessage (saveProductOutcome (.fail msg))) "SKU" ∧
      (saveProductOutcome (.fail msg)).formCleared = false) ∧
    (isDuplicateError msg = true → ¬ strHas (lowerStr msg) "sku" →
      strHas (lowerStr msg) "barcode" →
      strHas (surfacedMessage (saveProductOutcome (.fail msg))) "barcode" ∧
      (saveProductOutcome (.fail msg)).formCleared = false) ∧
    (isDuplicateError msg = false → ¬ strHas msg "SKU" → ¬ strHas msg "barcode" →
      ¬ strHas (surfacedMessage (saveProductOutcome (.fail msg))) "SKU" ∧
      ¬ strHas (surfacedMessage (saveProductOutcome (.fail msg))) "barcode" ∧
      (saveProductOutcome (.fail msg)).formCleared = false) := by
  refine ⟨?_, ?_, ?_⟩
  · intro hdup hsku
    simp only [saveProductOutcome]
    rw [if_pos hdup]
    unfold duplicateField
    have hc : (strHasB (lowerStr msg) "sku" || strHasB msg "unique_sku") = true := by
      unfold strHasB
      simp [hsku]
    rw [if_pos hc]
    unfold surfacedMessage
    exact ⟨by decide, rfl⟩
  · intro hdup hnsku hbar
    simp only [saveProductOutcome]
    rw [if_pos hdup]
    unfold duplicateField
    have hu : ¬ strHas msg "unique_sku" := by
      intro hus
      apply hnsku
      have h2 := strHas_lower hus
      have h3 : lowerStr "unique_sku" = "unique_sku" := by decide
      rw [h3] at h2
      exact strHas_of_strHas_of_sub h2 (by decide)
    have hc : (strHasB (lowerStr msg) "sku" || strHasB msg "unique_sku") = false := by
      unfold strHasB
      simp [hnsku, hu]
    rw [if_neg (by simp [hc])]
    have hc2 : (strHasB (lowerStr msg) "barcode" || strHasB msg "unique_barcode") = true := by
      unfold strHasB
      simp [hbar]
    rw [if_pos hc2]
    unfold surfacedMessage
    exact ⟨by decide, rfl⟩
  · intro hdup hnsku hnbar
    simp only [saveProductOutcome]
    rw [if_neg (by simp [hdup])]
    have key : ∀ pre : String,
        ¬ ("SKU".data <:+: pre.data) → ¬ ("barcode".data <:+: pre.data) →
        (∀ i, 0 < i → i < ("SKU" : String).data.length →
          ¬ (("SKU" : String).data.take i <:+ pre.data)) →
        (∀ i, 0 < i → i < ("barcode" : String).data.length →
          ¬ (("barcode" : String).data.take i <:+ pre.data)) →
        ¬ strHas (pre ++ msg) "SKU" ∧ ¬ strHas (pre ++ msg) "barcode" := by
      intro pre hs hb hs3 hb3
      constructor
      · show ¬ ("SKU".data <:+: (pre ++ msg).data)
        rw [data_append]
        exact not_infix_append _ _ _ hs hnsku hs3
      · show ¬ ("barcode".data <:+: (pre ++ msg).data)
        rw [data_append]
        exact not_infix_append _ _ _ hb hnbar hb3
    split
    · unfold surfacedMessage
      refine ?_
      have h := key "⚠️ DATABASE ERROR: " (by decide) (by decide)
        (by intro i hi1 hi2
            have h3 : ("SKU" : String).data.length = 3 := rfl
            rw [h3] at hi2
            interval_cases i <;> decide)
        (by intro i hi1 hi2
            have h7 : ("barcode" : String).data.length = 7 := rfl
            rw [h7] at hi2
            interval_cases i <;> decide)
      exact ⟨h.1, h.2, rfl⟩
    · unfold surfacedMessage
      have h := key "❌ SAVE ERROR: " (by decide) (by decide)
        (by intro i hi1 hi2
            have h3 : ("SKU" : String).data.length = 3 := rfl
            rw [h3] at hi2
            interval_cases i <;> decide)
        (by intro i hi1 hi2
            have h7 : ("barcode" : String).data.length = 7 := rfl
            rw [h7] at hi2
            interval_cases i <;> decide)
      exact ⟨h.1, h.2, rfl⟩

/-- A Postgres unique-violation message for the sku key. -/
def msgSkuConflict : String :=
  "duplicate key value violates unique constraint \"products_sku_key\""

/-- A Postgres unique-violation message for the barcode key. -/
def msgBarcodeConflict : String :=
  "duplicate key value violates unique constraint \"products_barcode_key\""

/-- An unrelated validation error message. -/
def msgUnrelated : String :=
  "value too long for type character varying"

set_option maxRecDepth 8192 in
/-- C5 (witness): the sku-key conflict surfaces a message containing
`"SKU"` without clearing the form, the barcode-key conflict one containing
`"barcode"`, and the unrelated error surfaces neither. -/
theorem save_duplicate_classification_witness :
    strHas (surfacedMessage (saveProductOutcome (.fail msgSkuConflict))) "SKU" ∧
    (saveProductOutcome (.fail msgSkuConflict)).formCleared = false ∧
    strHas (surfacedMessage (saveProductOutcome (.fail msgBarcodeConflict))) "barcode" ∧
    (saveProductOutcome (.fail msgBarcodeConflict)).formCleared = false ∧
    ¬ strHas (surfacedMessage (saveProductOutcome (.fail msgUnrelated))) "SKU" ∧
    ¬ strHas (surfacedMessage (saveProductOutcome (.fail msgUnrelated))) "barcode" := by
  have h1 := (save_duplicate_classification msgSkuConflict).1 (by decide) (by decide)
  have h2 := (save_duplicate_classification msgBarcodeConflict).2.1 (by decide)
    (by decide) (by decide)
  have h3 := (save_duplicate_classification msgUnrelated).2.2 (by decide)
    (by decide) (by decide)
  exact ⟨h1.1, h1.2, h2.1, h2.2, h3.1, h3.2.1⟩

/-- A pre-check UI state with a duplicate warning currently showing and no
edit in progress. -/
def staleWarningUi : PrecheckUi :=
  { editingId := none, duplicateProductId := some 7, warningVisible := true,
    warningText := "⚠️ Already in database: Widget (ID: 7)" }

/-- A pre-check UI state while editing record 3. -/
def editingUi : PrecheckUi :=
  { editingId := some 3, duplicateProductId := none, warningVisible := false,
    warningText := "" }

/-- C7 (code bug): when the barcode input becomes empty while a duplicate
warning is showing, the debounced listener filters the input out before
`checkBarcodeExists` can run, so the stale warning is never cleared — even
though calling `checkBarcodeExists` directly on the empty input would clear
it; the editing guard (no lookup while `editingId` is set) does hold. -/
theorem barcode_precheck_stale_warning_bug :
    (debouncedBarcodeCheck [] staleWarningUi "").1.warningVisible = true ∧
    (debouncedBarcodeCheck [] staleWarningUi "").1 = staleWarningUi ∧
    (debouncedBarcodeCheck [] staleWarningUi "").2 = false ∧
    (checkBarcodeExists [] staleWarningUi "").1.warningVisible = false ∧
    (checkBarcodeExists [] editingUi "036000291452").2 = false := by
  refine ⟨?_, ?_, ?_, ?_, ?_⟩ <;> decide

/-- C8: the multi-key edit lookup returns the head of the first non-empty
result set in priority order id, then barcode, then sku, and `none` when
every supplied key misses. -/
theorem fetchProductForEdit_priority (db : List Product) (pid : Option ℕ)
    (b s : Option String) :
    (byIdMatches db pid ≠ [] →
      fetchProductForEdit db pid b s = (byIdMatches db pid).head?) ∧
    (byIdMatches db pid = [] → byBarcodeMatches db b ≠ [] →
      fetchProductForEdit db pid b s = (byBarcodeMatches db b).head?) ∧
    (byIdMatches db pid = [] → byBarcodeMatches db b = [] → bySkuMatches db s ≠ [] →
      fetchProductForEdit db pid b s = (bySkuMatches db s).head?) ∧
    (byIdMatches db pid = [] → byBarcodeMatches db b = [] → bySkuMatches db s = [] →
      fetchProductForEdit db pid b s = none) := by
  refine ⟨fun h1 => ?_, fun h1 h2 => ?_, fun h1 h2 h3 => ?_, fun h1 h2 h3 => ?_⟩
  · rw [fetchProductForEdit]
    rw [if_pos h1]
  · rw [fetchProductForEdit]
    rw [if_neg (fun h => h h1), if_pos h2]
  · rw [fetchProductForEdit]
    rw [if_neg (fun h => h h1), if_neg (fun h => h h2), if_pos h3]
  · rw [fetchProductForEdit]
    rw [if_neg (fun h => h h1), if_neg (fun h => h h2), if_neg (fun h => h h3)]

/-- The record with id 7 in the witness store. -/
def prodSeven : Product := ⟨7, "Seven", some "777000111222", none⟩

/-- The record with id 8 in the witness store, whose barcode the lookup also
receives. -/
def prodEight : Product := ⟨8, "Eight", some "000111222333", none⟩

/-- The two-record witness store. -/
def dbTwo : List Product := [prodSeven, prodEight]

/-- C8 (witness): with id 7 supplied, the id-7 record wins even though the
supplied barcode matches the id-8 row. -/
theorem fetchProductForEdit_priority_witness :
    fetchProductForEdit dbTwo (some 7) (some "000111222333") none = some prodSeven ∧
    byBarcodeMatches dbTwo (some "000111222333") = [prodEight] := by
  constructor
  · have h := (fetchProductForEdit_priority dbTwo (some 7) (some "000111222333") none).1
      (by decide)
    rw [h]
    decide
  · decide

lemma computeScaledDims_small (w h : ℕ) (hw : 0 < w) (hle : w ≤ 1920) :
    computeScaledDims 1920 w h = (w, h) := by
  have hw' : (0 : ℚ) < w := by exact_mod_cast hw
  have hsc : min 1 ((1920 : ℚ) / (w : ℚ)) = 1 := by
    apply min_eq_left
    rw [one_le_div hw']
    exact_mod_cast hle
  unfold computeScaledDims
  dsimp only
  simp only [Nat.cast_ofNat]
  rw [hsc]
  simp

lemma computeScaledDims_large (w h : ℕ) (hgt : 1920 < w) :
    computeScaledDims 1920 w h = (1920, (⌊(h : ℚ) * 1920 / (w : ℚ)⌋).toNat) := by
  have hw' : (0 : ℚ) < w := by
    have : (0 : ℕ) < w := by omega
    exact_mod_cast this
  have hsc : min 1 ((1920 : ℚ) / (w : ℚ)) = (1920 : ℚ) / (w : ℚ) := by
    apply min_eq_right
    rw [div_le_one hw']
    exact_mod_cast hgt.le
  unfold computeScaledDims
  dsimp only
  simp only [Nat.cast_ofNat]
  rw [hsc]
  have hwmul : (w : ℚ) * ((1920 : ℚ) / (w : ℚ)) = 1920 := by
    field_simp
  have hhmul : (h : ℚ) * ((1920 : ℚ) / (w : ℚ)) = (h : ℚ) * 1920 / (w : ℚ) := by
    ring
  rw [hwmul, hhmul]
  simp

/-- C9: the computed output dimensions keep the width at most 1920 and never
upscale; both dimensions come from one common scale (so the height is the
floor of `h·w'/w`); the computation is idempotent on its own output; and a
4000×3000 source maps to 1920×1440. -/
theorem compressImage_dimension_spec (w h : ℕ) (hw : 0 < w) :
    (computeScaledDims 1920 w h).1 ≤ 1920 ∧
    (computeScaledDims 1920 w h).1 ≤ w ∧
    (computeScaledDims 1920 w h).2 ≤ h ∧
    (computeScaledDims 1920 w h).2 =
      (⌊(h : ℚ) * ((computeScaledDims 1920 w h).1 : ℚ) / (w : ℚ)⌋).toNat ∧
    computeScaledDims 1920 (computeScaledDims 1920 w h).1
      (computeScaledDims 1920 w h).2 = computeScaledDims 1920 w h ∧
    computeScaledDims 1920 4000 3000 = (1920, 1440) := by
  have hconc : computeScaledDims 1920 4000 3000 = (1920, 1440) := by
    rw [computeScaledDims_large 4000 3000 (by norm_num)]
    norm_num
    decide
  by_cases hcase : w ≤ 1920
  · rw [computeScaledDims_small w h hw hcase]
    have hw' : (0 : ℚ) < w := by exact_mod_cast hw
    refine ⟨hcase, le_rfl, le_rfl, ?_, computeScaledDims_small w h hw hcase, hconc⟩
    rw [mul_div_assoc, div_self (ne_of_gt hw'), mul_one]
    simp
  · push_neg at hcase
    rw [computeScaledDims_large w h hcase]
    have hw' : (0 : ℚ) < w := by exact_mod_cast hw
    have hhle : (⌊(h : ℚ) * 1920 / (w : ℚ)⌋).toNat ≤ h := by
      have hle1 : (h : ℚ) * 1920 / (w : ℚ) ≤ (h : ℚ) := by
        rw [mul_div_assoc]
        apply mul_le_of_le_one_right (by positivity)
        rw [div_le_one hw']
        exact_mod_cast hcase.le
      have := Int.floor_le_floor hle1
      rw [Int.floor_natCast] at this
      omega
    refine ⟨le_rfl, by omega, hhle, by norm_num, ?_, hconc⟩
    exact computeScaledDims_small 1920 _ (by norm_num) le_rfl

/-- C9 (witness): the 4000×3000 instance, with every generic conclusion
instantiated there. -/
theorem compressImage_dimension_spec_witness :
    computeScaledDims 1920 4000 3000 = (1920, 1440) ∧
    (computeScaledDims 1920 4000 3000).1 ≤ 1920 ∧
    computeScaledDims 1920 (computeScaledDims 1920 4000 3000).1
      (computeScaledDims 1920 4000 3000).2 = computeScaledDims 1920 4000 3000 := by
  have h := compressImage_dimension_spec 4000 3000 (by norm_num)
  exact ⟨h.2.2.2.2.2, h.1, h.2.2.2.2.1⟩

/-- C10: `collectFormData` maps a price input whose text parses to `NaN`
(empty or non-numeric) or to exactly `0` to `null`, keeps any other parsed
price, maps a quantity parsing to `NaN` or `0` to `1`, keeps any other
parsed quantity, and maps an empty SKU to `null` while upper-casing a
non-empty one. -/
theorem collectFormData_coercions (f : FormInputs) :
    ((collectFormData f).retail_price = none ↔
      jsParseFloat f.retail_price = none ∨ jsParseFloat f.retail_price = some 0) ∧
    (∀ q, jsParseFloat f.retail_price = some q → q ≠ 0 →
      (collectFormData f).retail_price = some q) ∧
    ((collectFormData f).supply_price = none ↔
      jsParseFloat f.supply_price = none ∨ jsParseFloat f.supply_price = some 0) ∧
    (∀ q, jsParseFloat f.supply_price = some q → q ≠ 0 →
      (collectFormData f).supply_price = some q) ∧
    ((jsParseInt f.quantity = none ∨ jsParseInt f.quantity = some 0) →
      (collectFormData f).quantity = 1) ∧
    (∀ z, jsParseInt f.quantity = some z → z ≠ 0 →
      (collectFormData f).quantity = z) ∧
    (f.sku = "" → (collectFormData f).sku = none) ∧
    (f.sku ≠ "" → (collectFormData f).sku = some (upperStr f.sku)) := by
  unfold collectFormData parseFloatOrNull parseIntOrOne
  dsimp only
  refine ⟨?_, ?_, ?_, ?_, ?_, ?_, ?_, ?_⟩
  · cases hp : jsParseFloat f.retail_price with
    | none => simp [hp]
    | some q =>
      by_cases hq : q = 0 <;> simp [hp, hq]
  · intro q hp hq
    rw [hp]
    simp [hq]
  · cases hp : jsParseFloat f.supply_price with
    | none => simp [hp]
    | some q =>
      by_cases hq : q = 0 <;> simp [hp, hq]
  · intro q hp hq
    rw [hp]
    simp [hq]
  · rintro (hp | hp) <;> rw [hp] <;> simp
  · intro z hp hz
    rw [hp]
    simp [hz]
  · intro hsku
    simp [hsku]
  · intro hsku
    simp [hsku]

/-- The form contents of the C10 witness: a zero retail price, a decimal
supply price, quantity 3, and a lower-case SKU. -/
def witnessInputs : FormInputs :=
  { name := "Widget", style_number := "", sku := "ab-12", barcode := "",
    brand_name := "", product_category := "", retail_price := "0",
    supply_price := "19.99", size_or_dimensions := "", color := "",
    quantity := "3", tags := "", description := "", notes := "" }

/-- C10 (witness): on the concrete form, the zero retail price is saved as
`null`, the supply price keeps its parsed value, the quantity keeps its
parsed value, and the SKU is upper-cased. -/
theorem collectFormData_coercions_witness :
    (collectFormData witnessInputs).retail_price = none ∧
    (collectFormData witnessInputs).supply_price = some (1999 / 100) ∧
    (collectFormData witnessInputs).quantity = 3 ∧
    (collectFormData witnessInputs).sku = some "AB-12" := by
  have h := collectFormData_coercions witnessInputs
  refine ⟨h.1.mpr (Or.inr ?_), h.2.2.2.1 (1999 / 100) ?_ (by norm_num), 
    h.2.2.2.2.2.1 3 (by decide) (by decide), ?_⟩
  · show jsParseFloat "0" = some 0
    simp +decide [jsParseFloat, digitsVal] <;> norm_num
  · show jsParseFloat "19.99" = some (1999 / 100)
    simp +decide [jsParseFloat, digitsVal] <;> norm_num
  · have hs := h.2.2.2.2.2.2.2 (by decide)
    rw [hs]
    decide
